import Mathlib

/-!
Verification of the style-property layer (`src/textual/css/_style_properties.py`).

The property descriptors themselves are translated from the source file.
External collaborators that the repository keeps outside that file (the rule
store of `Styles`, the scalar / color / style parsers, `Spacing.unpack`,
`clamp`, the layout registry, Python string builtins) are modelled from the
spec's description of their contracts; each such definition carries a doc
comment saying so.

Machine floats are modelled as rationals (`ℚ`); Python's dynamic argument
types are modelled as tagged unions with one constructor per `isinstance`
branch of the source, plus an `other` constructor for every remaining Python
type.  A setter returns the new `Styles` state together with `Option StyleErr`;
on an error the returned state carries exactly the side effects the source
performed before the `raise`.
-/

deriving instance DecidableEq for Except

namespace Textual

/-- Error kinds raised by this layer (`errors.StyleTypeError`,
`errors.StyleValueError`, and the parser errors), one constructor per
distinct `raise` site / parser failure the claims talk about. -/
inductive StyleErr
  | styleValueScalarParse
  | styleValueUnit
  | styleValueExpectedScalar
  | styleValueBorderArity
  | styleValueSpacingArity
  | styleValueEnum
  | styleValueStyleFlag (word : String)
  | styleValueUnknownLayout
  | styleValueStyleParse
  | styleTypeName
  | styleTypeFractional
  | colorParseError
  | scalarParseError
deriving DecidableEq

/-- Units of a scalar (modelled from the spec: the `Unit` enum of the external
scalar module; called `CssUnit` because `Unit` is taken in Lean). -/
inductive CssUnit
  | cells
  | fraction
  | percent
  | width
  | height
  | viewWidth
  | viewHeight
deriving DecidableEq

/-- Modelled from the spec: Python's `str.split(sep)` on a single-character
separator, over the character list of the string. -/
def splitOnChar (sep : Char) : List Char → List Char → List (List Char)
  | acc, [] => [acc.reverse]
  | acc, c :: cs =>
    if c = sep then acc.reverse :: splitOnChar sep [] cs
    else splitOnChar sep (c :: acc) cs

/-- Modelled from the spec: Python's `str.split(" ")`. -/
def pySplit (s : String) : List String := (splitOnChar ' ' [] s.data).map String.mk

/-- Whitespace recognised by Python's `str.strip()`. -/
def isPySpace (c : Char) : Bool := c == ' ' || c == '\t' || c == '\n' || c == '\r'

/-- Modelled from the spec: Python's `str.strip()`. -/
def pyStrip (s : String) : String :=
  String.mk (((s.data.dropWhile isPySpace).reverse.dropWhile isPySpace).reverse)

/-- ASCII lower-casing of one character. -/
def asciiLower (c : Char) : Char :=
  if 65 ≤ c.toNat ∧ c.toNat ≤ 90 then Char.ofNat (c.toNat + 32) else c

/-- Modelled from the spec: Python's `str.lower()` (ASCII range). -/
def pyLower (s : String) : String := String.mk (s.data.map asciiLower)

/-- Modelled from the spec: Python's `str.endswith`. -/
def pyEndsWith (s t : String) : Bool := s.data.reverse.take t.data.length == t.data.reverse

/-- Value of a string of decimal digits, `none` if empty or non-digit. -/
def digitsVal (cs : List Char) : Option Nat :=
  if cs.isEmpty then none
  else
    cs.foldl
      (fun acc c =>
        match acc with
        | none => none
        | some n => if '0' ≤ c ∧ c ≤ '9' then some (n * 10 + (c.toNat - 48)) else none)
      (some 0)

/-- Modelled from the spec: parsing the numeric part of a scalar literal
(unsigned decimal notation). -/
def parseDecimal (s : String) : Option ℚ :=
  match splitOnChar '.' [] s.data with
  | [i] => (digitsVal i).map fun n => (n : ℚ)
  | [i, f] =>
    match digitsVal i, digitsVal f with
    | some a, some b => some ((a : ℚ) + (b : ℚ) / (10 : ℚ) ^ f.length)
    | _, _ => none
  | _ => none

/-- A scalar: numeric value, unit, and percent-reference unit (spec §3;
`scalar.Scalar` is external to `src/`). -/
structure Scalar where
  value : ℚ
  unit : CssUnit
  percentUnit : CssUnit
deriving DecidableEq

/-- The source's `Scalar.is_percent` property. -/
def Scalar.is_percent (s : Scalar) : Bool := s.unit == CssUnit.percent

/-- The unit symbols of `UNIT_SYMBOL`, longest first so that `"vw"` is not
read as a width symbol. -/
def unitSymbols : List (String × CssUnit) :=
  [("vw", CssUnit.viewWidth), ("vh", CssUnit.viewHeight), ("fr", CssUnit.fraction),
   ("%", CssUnit.percent), ("w", CssUnit.width), ("h", CssUnit.height)]

/-- Modelled from the spec: the external scalar-literal parser
(`Scalar.parse(token, percent_unit)`, `scalar.py` is not under `src/`):
a decimal number followed by an optional unit symbol; a bare number means
cells; the parsed scalar carries the supplied percent-reference unit. -/
def Scalar.parse (text : String) (percentUnit : CssUnit) : Except StyleErr Scalar :=
  match unitSymbols.find? (fun p => pyEndsWith text p.1) with
  | some (symbol, u) =>
    match parseDecimal (String.mk (text.data.take (text.data.length - symbol.data.length))) with
    | some v => Except.ok ⟨v, u, percentUnit⟩
    | none => Except.error StyleErr.scalarParseError
  | none =>
    match parseDecimal text with
    | some v => Except.ok ⟨v, CssUnit.cells, percentUnit⟩
    | none => Except.error StyleErr.scalarParseError

/-- Colors (`rich.color.Color` is an external collaborator); `default` is the
sentinel `Color.default()`, other colors are kept by name. -/
inductive Color
  | default
  | named (name : String)
deriving DecidableEq

/-- Modelled from the spec: the external color-literal parser (`Color.parse`);
recognises a small vocabulary of color names and fails on anything else. -/
def Color.parse (text : String) : Except StyleErr Color :=
  if text ∈ ["red", "green", "blue", "white", "black", "yellow", "magenta", "cyan"] then
    Except.ok (Color.named text)
  else Except.error StyleErr.colorParseError

/-- Modelled from the spec: a rich text `Style` value — optional foreground
and background colors plus tri-state attribute flags. -/
structure Style where
  color : Option Color
  bgcolor : Option Color
  bold : Option Bool
  italic : Option Bool
  underline : Option Bool
  overline : Option Bool
  strike : Option Bool
deriving DecidableEq

/-- The null style (`Style()` / `Style.null()`). -/
def Style.null : Style := ⟨none, none, none, none, none, none, none⟩

/-- The source's `style.without_color`. -/
def Style.without_color (s : Style) : Style := { s with color := none, bgcolor := none }

/-- Python truthiness of a `Style`: true iff any component is set. -/
def Style.truthy (s : Style) : Bool :=
  s.color.isSome || s.bgcolor.isSome || s.bold.isSome || s.italic.isSome ||
    s.underline.isSome || s.overline.isSome || s.strike.isSome

/-- Word list rendered for one tri-state attribute flag by `str(style)`. -/
def flagWord (name : String) : Option Bool → List String
  | some true => [name]
  | some false => ["not " ++ name]
  | none => []

/-- Modelled from the spec: Python's `str(style)` for an attribute-only style,
the form the composite text-style property writes into the `text_style` rule. -/
def Style.render (s : Style) : String :=
  String.intercalate " "
    (flagWord "bold" s.bold ++ flagWord "italic" s.italic ++ flagWord "underline" s.underline ++
      flagWord "overline" s.overline ++ flagWord "strike" s.strike)

/-- One step of the modelled style-literal parser: current style, a pending
`not`, whether we are after `on` (background), and the remaining words. -/
def Style.parseWords : Style → Bool → Bool → List String → Except StyleErr Style
  | st, neg, _, [] => if neg then Except.error StyleErr.styleValueStyleParse else Except.ok st
  | st, neg, bg, w :: ws =>
    if w == "" then Style.parseWords st neg bg ws
    else if w == "not" then Style.parseWords st true bg ws
    else if w == "none" then Style.parseWords Style.null false bg ws
    else if w == "on" then
      if neg then Except.error StyleErr.styleValueStyleParse
      else Style.parseWords st false true ws
    else if w == "bold" || w == "b" then Style.parseWords { st with bold := some (!neg) } false bg ws
    else if w == "italic" || w == "i" then Style.parseWords { st with italic := some (!neg) } false bg ws
    else if w == "underline" || w == "u" then
      Style.parseWords { st with underline := some (!neg) } false bg ws
    else if w == "overline" || w == "o" then
      Style.parseWords { st with overline := some (!neg) } false bg ws
    else if w == "strike" then Style.parseWords { st with strike := some (!neg) } false bg ws
    else
      match Color.parse w with
      | Except.ok c =>
        if neg then Except.error StyleErr.styleValueStyleParse
        else if bg then Style.parseWords { st with bgcolor := some c } false bg ws
        else Style.parseWords { st with color := some c } false bg ws
      | Except.error _ => Except.error StyleErr.styleValueStyleParse

/-- Modelled from the spec: the external style-literal parser
(rich's `Style.parse`). -/
def Style.parse (text : String) : Except StyleErr Style :=
  Style.parseWords Style.null false false (pySplit text)

/-- 4-sided integer spacing (`geometry.Spacing` is external to `src/`). -/
structure Spacing where
  top : Int
  right : Int
  bottom : Int
  left : Int
deriving DecidableEq

/-- The `NULL_SPACING` constant. -/
def NULL_SPACING : Spacing := ⟨0, 0, 0, 0⟩

/-- The `SpacingDimensions` input union: a bare int or a sequence of ints. -/
inductive SpacingDimensions
  | int (n : Int)
  | seq (ns : List Int)
deriving DecidableEq

/-- Modelled from the spec: `Spacing.unpack` shorthand expansion
(`geometry.py` is not under `src/`): 1 value → all sides,
2 → (vertical, horizontal), 4 → (top, right, bottom, left), otherwise a
`ValueError` for the invalid spacing arity. -/
def Spacing.unpack : SpacingDimensions → Except StyleErr Spacing
  | SpacingDimensions.int n => Except.ok ⟨n, n, n, n⟩
  | SpacingDimensions.seq [n] => Except.ok ⟨n, n, n, n⟩
  | SpacingDimensions.seq [v, h] => Except.ok ⟨v, h, v, h⟩
  | SpacingDimensions.seq [t, r, b, l] => Except.ok ⟨t, r, b, l⟩
  | SpacingDimensions.seq _ => Except.error StyleErr.styleValueSpacingArity

/-- An (x, y) pair of scalars (`scalar.ScalarOffset`, external to `src/`). -/
structure ScalarOffset where
  x : Scalar
  y : Scalar
deriving DecidableEq

/-- `ScalarOffset.null()`: zero scalars in the CELLS unit. -/
def ScalarOffset.null : ScalarOffset :=
  ⟨⟨0, CssUnit.cells, CssUnit.width⟩, ⟨0, CssUnit.cells, CssUnit.height⟩⟩

/-- An opaque dock-group descriptor (`styles.DockGroup`, external to this
file; the store keeps them verbatim). -/
structure DockGroup where
  name : String
deriving DecidableEq

/-- An opaque transition descriptor (`transition.Transition`, external). -/
structure Transition where
  descr : String
deriving DecidableEq

/-- An opaque layout-algorithm object (`layout.Layout`, external). -/
structure LayoutObj where
  name : String
deriving DecidableEq

/-- Modelled from the spec: the external layout registry (`get_layout`);
an unknown name is a `ValueError` (unknown layout). -/
def get_layout (name : String) : Except StyleErr LayoutObj :=
  if name ∈ ["dock", "vertical", "horizontal", "grid"] then Except.ok ⟨name⟩
  else Except.error StyleErr.styleValueUnknownLayout

/-- The loosely-typed values that can sit in the rule store, one constructor
per value shape the setters of the source store.  `pyNone` is a Python `None`
stored *inside* the store (only `DockProperty.__set__` ever does this). -/
inductive RuleValue
  | scalar (s : Scalar)
  | box (b : String × Color)
  | spacing (s : Spacing)
  | docks (d : List DockGroup)
  | str (s : String)
  | strTuple (ts : List String)
  | color (c : Color)
  | style (st : Style)
  | offset (o : ScalarOffset)
  | layout (l : LayoutObj)
  | transitions (t : List (String × Transition))
  | fractional (q : ℚ)
  | pyNone
deriving DecidableEq

/-- The owning `Styles` object: the rule store plus the log of refresh calls
made on it (each entry is the `layout` flag of one `refresh` call, in call
order). -/
structure Styles where
  rules : List (String × RuleValue)
  refreshCalls : List Bool
deriving DecidableEq

/-- Modelled from the spec: the rule-store collaborator's `set_rule`. -/
def Styles.set_rule (obj : Styles) (name : String) (v : RuleValue) : Styles :=
  { obj with rules := (name, v) :: obj.rules.filter (fun p => p.1 != name) }

/-- Modelled from the spec: the rule-store collaborator's `clear_rule`. -/
def Styles.clear_rule (obj : Styles) (name : String) : Styles :=
  { obj with rules := obj.rules.filter (fun p => p.1 != name) }

/-- Modelled from the spec: the rule-store collaborator's `get_rule` with no
default: the stored value, or `none` when the rule is absent. -/
def Styles.get_rule (obj : Styles) (name : String) : Option RuleValue :=
  (obj.rules.find? (fun p => p.1 == name)).map Prod.snd

/-- Modelled from the spec: `get_rule(name, default)` — mapping lookup with a
default, so a stored value (even a stored Python `None`) wins over the
default. -/
def Styles.get_rule_or (obj : Styles) (name : String) (d : RuleValue) : RuleValue :=
  (obj.get_rule name).getD d

/-- Modelled from the spec: the rule-store collaborator's `has_rule`. -/
def Styles.has_rule (obj : Styles) (name : String) : Bool := (obj.get_rule name).isSome

/-- Modelled from the spec: the refresh collaborator; `refresh false` is the
repaint-only `refresh()`, `refresh true` is `refresh(layout=True)`. -/
def Styles.refresh (obj : Styles) (layout : Bool) : Styles :=
  { obj with refreshCalls := obj.refreshCalls ++ [layout] }

/-- A `Styles` object with nothing set and no refreshes recorded. -/
def styles0 : Styles := ⟨[], []⟩

/-- Configuration of a `ScalarProperty` descriptor: rule name, allowed units,
and the percent-reference unit (source `ScalarProperty.__init__`). -/
structure ScalarProperty where
  name : String
  units : List CssUnit
  percent_unit : CssUnit

/-- The dynamic input of `ScalarProperty.__set__`: a Python float, a
`Scalar`, a string, `None`, or any other Python type (the source's final
`else` branch). -/
inductive ScalarInput
  | num (value : ℚ)
  | scalar (value : Scalar)
  | str (value : String)
  | none'
  | other (tag : String)
deriving DecidableEq

/-- The tail of `ScalarProperty.__set__` after `new_value` is known: the
allowed-unit check, the percent-axis rewrite, the store and the refresh
(source lines 102–109). -/
def ScalarProperty.finish (p : ScalarProperty) (obj : Styles) (new_value : Scalar) :
    Styles × Option StyleErr :=
  if ¬ p.units.contains new_value.unit then (obj, some StyleErr.styleValueUnit)
  else
    let v := if new_value.is_percent then
        Scalar.mk new_value.value p.percent_unit CssUnit.width
      else new_value
    ((obj.set_rule p.name (RuleValue.scalar v)).refresh false, none)

/-- `ScalarProperty.__set__`. -/
def ScalarProperty.set (p : ScalarProperty) (obj : Styles) (value : ScalarInput) :
    Styles × Option StyleErr :=
  match value with
  | ScalarInput.none' => (obj.clear_rule p.name, none)
  | ScalarInput.num v => p.finish obj ⟨v, CssUnit.cells, CssUnit.width⟩
  | ScalarInput.scalar v => p.finish obj v
  | ScalarInput.str s =>
    match Scalar.parse s CssUnit.width with
    | Except.ok v => p.finish obj v
    | Except.error _ => (obj, some StyleErr.styleValueScalarParse)
  | ScalarInput.other _ => (obj, some StyleErr.styleValueExpectedScalar)

/-- `ScalarProperty.__get__`. -/
def ScalarProperty.get (p : ScalarProperty) (obj : Styles) : Option Scalar :=
  match obj.get_rule p.name with
  | some (RuleValue.scalar s) => some s
  | _ => none

/-- The color slot of a box-edge 2-tuple: a string literal or a `Color`. -/
inductive ColorInput
  | str (s : String)
  | color (c : Color)
deriving DecidableEq

/-- `BoxProperty.DEFAULT`. -/
def BoxProperty.DEFAULT : String × Color := ("", Color.default)

/-- `BoxProperty.__set__` for the edge rule called `name`. -/
def BoxProperty.set (name : String) (obj : Styles) (border : Option (String × ColorInput)) :
    Styles × Option StyleErr :=
  match border with
  | none => ((obj.clear_rule name).refresh false, none)
  | some (t, ColorInput.color c) => ((obj.set_rule name (RuleValue.box (t, c))).refresh false, none)
  | some (t, ColorInput.str s) =>
    match Color.parse s with
    | Except.ok c => ((obj.set_rule name (RuleValue.box (t, c))).refresh false, none)
    | Except.error e => (obj, some e)

/-- `BoxProperty.__get__`. -/
def BoxProperty.get (name : String) (obj : Styles) : String × Color :=
  match obj.get_rule name with
  | some (RuleValue.box b) => b
  | _ => BoxProperty.DEFAULT

/-- The `Edges` named tuple of the source. -/
structure Edges where
  top : String × Color
  right : String × Color
  bottom : String × Color
  left : String × Color
deriving DecidableEq

/-- The input union of `BorderProperty.__set__`: `None`, a single 2-tuple, or
a sequence of optional 2-tuples. -/
inductive BorderInput
  | none'
  | tuple (b : String × ColorInput)
  | seq (bs : List (Option (String × ColorInput)))
deriving DecidableEq

/-- The sequence of `setattr(obj, edge, value)` calls the border setter makes:
each one runs `BoxProperty.__set__` on its edge rule, and a raised error
aborts the remaining calls (as a Python exception does). -/
def setEdges (obj : Styles) : List (String × Option (String × ColorInput)) →
    Styles × Option StyleErr
  | [] => (obj, none)
  | (n, b) :: rest =>
    match BoxProperty.set n obj b with
    | (obj2, none) => setEdges obj2 rest
    | (obj2, some e) => (obj2, some e)

/-- `BorderProperty.__set__` for the composite property called `name`
(edge rules `name_top` / `name_right` / `name_bottom` / `name_left`). -/
def BorderProperty.set (name : String) (obj : Styles) (border : BorderInput) :
    Styles × Option StyleErr :=
  let top := name ++ "_top"
  let right := name ++ "_right"
  let bottom := name ++ "_bottom"
  let left := name ++ "_left"
  let obj := obj.refresh false
  match border with
  | BorderInput.none' =>
    ((((obj.clear_rule top).clear_rule right).clear_rule bottom).clear_rule left, none)
  | BorderInput.tuple b =>
    setEdges obj [(top, some b), (right, some b), (bottom, some b), (left, some b)]
  | BorderInput.seq bs =>
    match bs with
    | [b] => setEdges obj [(top, b), (right, b), (bottom, b), (left, b)]
    | [b1, b2] => setEdges obj [(top, b1), (right, b1), (bottom, b2), (left, b2)]
    | [b1, b2, b3, b4] => setEdges obj [(top, b1), (right, b2), (bottom, b3), (left, b4)]
    | _ => (obj, some StyleErr.styleValueBorderArity)

/-- `BorderProperty.__get__`. -/
def BorderProperty.get (name : String) (obj : Styles) : Edges :=
  ⟨BoxProperty.get (name ++ "_top") obj, BoxProperty.get (name ++ "_right") obj,
    BoxProperty.get (name ++ "_bottom") obj, BoxProperty.get (name ++ "_left") obj⟩

/-- The input union of `ColorProperty.__set__`; `other` stands for every
Python type that is not `Color`, `str` or `None` (no `isinstance` branch of
the source matches it). -/
inductive ColorPropInput
  | color (c : Color)
  | str (s : String)
  | none'
  | other (tag : String)
deriving DecidableEq

/-- `ColorProperty.__set__` for the rule called `name`.  Note the source has
no final `else`: a value of any other type falls through the `isinstance`
chain and the method returns with no store change and no error. -/
def ColorProperty.set (name : String) (obj : Styles) (color : ColorPropInput) :
    Styles × Option StyleErr :=
  let obj := obj.refresh false
  match color with
  | ColorPropInput.none' => (obj.clear_rule name, none)
  | ColorPropInput.color c => (obj.set_rule name (RuleValue.color c), none)
  | ColorPropInput.str s =>
    match Color.parse s with
    | Except.ok c => (obj.set_rule name (RuleValue.color c), none)
    | Except.error e => (obj, some e)
  | ColorPropInput.other _ => (obj, none)

/-- `StyleFlagsProperty._VALID_PROPERTIES`. -/
def VALID_PROPERTIES : List String :=
  ["none", "not", "bold", "italic", "underline", "overline", "strike", "b", "i", "u", "o"]

/-- `StyleFlagsProperty.__set__` for the rule called `name`. -/
def StyleFlagsProperty.set (name : String) (obj : Styles) (style_flags : Option String) :
    Styles × Option StyleErr :=
  let obj := obj.refresh false
  match style_flags with
  | none => (obj.clear_rule name, none)
  | some flags =>
    let words := (pySplit flags).map pyStrip
    match words.find? (fun w => !VALID_PROPERTIES.contains w) with
    | some w => (obj, some (StyleErr.styleValueStyleFlag w))
    | none =>
      match Style.parse flags with
      | Except.ok st => (obj.set_rule name (RuleValue.style st), none)
      | Except.error e => (obj, some e)

/-- `StyleFlagsProperty.__get__`. -/
def StyleFlagsProperty.get (name : String) (obj : Styles) : Style :=
  match obj.get_rule name with
  | some (RuleValue.style s) => s
  | _ => Style.null

/-- Sequencing of two effectful statements: a raised error in the first
aborts the second (Python exception flow). -/
def andThen (r : Styles × Option StyleErr) (k : Styles → Styles × Option StyleErr) :
    Styles × Option StyleErr :=
  match r with
  | (o, some e) => (o, some e)
  | (o, none) => k o

/-- The decomposition half of `StyleProperty.__set__` (source lines 343–348):
write `text_color` / `text_background` / `text_style` for the components the
style value carries, each through its own descriptor. -/
def StyleProperty.apply (obj : Styles) (style : Style) : Styles × Option StyleErr :=
  andThen (match style.color with
    | some c => ColorProperty.set "text_color" obj (ColorPropInput.color c)
    | none => (obj, none))
    (fun obj1 =>
      andThen (match style.bgcolor with
        | some c => ColorProperty.set "text_background" obj1 (ColorPropInput.color c)
        | none => (obj1, none))
        (fun obj2 =>
          if (style.without_color).truthy then
            StyleFlagsProperty.set "text_style" obj2 (some (style.without_color).render)
          else (obj2, none)))

/-- The input union of `StyleProperty.__set__`. -/
inductive StyleInput
  | style (s : Style)
  | str (s : String)
  | none'
deriving DecidableEq

/-- `StyleProperty.__set__` (the composite text-style property). -/
def StyleProperty.set (obj : Styles) (input : StyleInput) : Styles × Option StyleErr :=
  let obj := obj.refresh false
  match input with
  | StyleInput.none' =>
    (((obj.clear_rule "text_color").clear_rule "text_background").clear_rule "text_style", none)
  | StyleInput.str s =>
    match Style.parse s with
    | Except.ok st => StyleProperty.apply obj st
    | Except.error e => (obj, some e)
  | StyleInput.style st => StyleProperty.apply obj st

/-- `SpacingProperty.__set__` for the rule called `name`. -/
def SpacingProperty.set (name : String) (obj : Styles) (spacing : Option SpacingDimensions) :
    Styles × Option StyleErr :=
  let obj := obj.refresh true
  match spacing with
  | none => (obj.clear_rule name, none)
  | some dims =>
    match Spacing.unpack dims with
    | Except.ok sp => (obj.set_rule name (RuleValue.spacing sp), none)
    | Except.error e => (obj, some e)

/-- `SpacingProperty.__get__`. -/
def SpacingProperty.get (name : String) (obj : Styles) : Spacing :=
  match obj.get_rule_or name (RuleValue.spacing NULL_SPACING) with
  | RuleValue.spacing s => s
  | _ => NULL_SPACING

/-- `DocksProperty.__set__`. -/
def DocksProperty.set (obj : Styles) (docks : Option (List DockGroup)) :
    Styles × Option StyleErr :=
  let obj := obj.refresh true
  match docks with
  | none => (obj.clear_rule "docks", none)
  | some ds => (obj.set_rule "docks" (RuleValue.docks ds), none)

/-- `DockProperty.__set__`.  The source has no `None` branch: it always calls
`set_rule("dock", spacing)`, so a `None` write stores a Python `None` inside
the store instead of clearing the rule. -/
def DockProperty.set (obj : Styles) (spacing : Option String) : Styles × Option StyleErr :=
  let obj := obj.refresh true
  (obj.set_rule "dock" (match spacing with
    | some s => RuleValue.str s
    | none => RuleValue.pyNone), none)

/-- `DockProperty.__get__`: `get_rule("dock", "_default")`.  Although the
annotation promises `str`, a stored Python `None` flows out of the store, so
the read is typed `Option String` with `none` standing for that `None`. -/
def DockProperty.get (obj : Styles) : Option String :=
  match obj.get_rule_or "dock" (RuleValue.str "_default") with
  | RuleValue.str s => some s
  | _ => none

/-- The input union of `LayoutProperty.__set__`. -/
inductive LayoutInput
  | str (s : String)
  | layout (l : LayoutObj)
  | none'
deriving DecidableEq

/-- `LayoutProperty.__set__`. -/
def LayoutProperty.set (obj : Styles) (layout : LayoutInput) : Styles × Option StyleErr :=
  let obj := obj.refresh true
  match layout with
  | LayoutInput.none' => (obj.clear_rule "layout", none)
  | LayoutInput.layout l => (obj.set_rule "layout" (RuleValue.layout l), none)
  | LayoutInput.str s =>
    match get_layout s with
    | Except.ok l => (obj.set_rule "layout" (RuleValue.layout l), none)
    | Except.error e => (obj, some e)

/-- One component of an offset 2-tuple: a Python int or a string literal. -/
inductive OffsetComponent
  | int (n : Int)
  | str (s : String)
deriving DecidableEq

/-- The input union of `OffsetProperty.__set__`. -/
inductive OffsetInput
  | pair (x y : OffsetComponent)
  | scalarOffset (o : ScalarOffset)
  | none'
deriving DecidableEq

/-- `OffsetProperty.__set__` for the rule called `name`.  A string component
is parsed with the axis-specific percent unit (x → WIDTH, y → HEIGHT); a
numeric component becomes a CELLS scalar.  `scalar_x` is computed before
`scalar_y`, so a parse error on x aborts before y is looked at. -/
def OffsetProperty.set (name : String) (obj : Styles) (offset : OffsetInput) :
    Styles × Option StyleErr :=
  let obj := obj.refresh true
  match offset with
  | OffsetInput.none' => (obj.clear_rule name, none)
  | OffsetInput.scalarOffset o => (obj.set_rule name (RuleValue.offset o), none)
  | OffsetInput.pair x y =>
    let sx := match x with
      | OffsetComponent.str s => Scalar.parse s CssUnit.width
      | OffsetComponent.int n => Except.ok (Scalar.mk (n : ℚ) CssUnit.cells CssUnit.width)
    match sx with
    | Except.error e => (obj, some e)
    | Except.ok scalar_x =>
      let sy := match y with
        | OffsetComponent.str s => Scalar.parse s CssUnit.height
        | OffsetComponent.int n => Except.ok (Scalar.mk (n : ℚ) CssUnit.cells CssUnit.height)
      match sy with
      | Except.error e => (obj, some e)
      | Except.ok scalar_y => (obj.set_rule name (RuleValue.offset ⟨scalar_x, scalar_y⟩), none)

/-- `OffsetProperty.__get__`. -/
def OffsetProperty.get (name : String) (obj : Styles) : ScalarOffset :=
  match obj.get_rule_or name (RuleValue.offset ScalarOffset.null) with
  | RuleValue.offset o => o
  | _ => ScalarOffset.null

/-- Configuration of a `StringEnumProperty`: rule name, the fixed set of
valid values and the per-instance default. -/
structure StringEnumProperty where
  name : String
  valid_values : List String
  default : String

/-- `StringEnumProperty.__set__`. -/
def StringEnumProperty.set (p : StringEnumProperty) (obj : Styles) (value : Option String) :
    Styles × Option StyleErr :=
  let obj := obj.refresh false
  match value with
  | none => (obj.clear_rule p.name, none)
  | some v =>
    if ¬ p.valid_values.contains v then (obj, some StyleErr.styleValueEnum)
    else (obj.set_rule p.name (RuleValue.str v), none)

/-- `StringEnumProperty.__get__`. -/
def StringEnumProperty.get (p : StringEnumProperty) (obj : Styles) : Option String :=
  match obj.get_rule_or p.name (RuleValue.str p.default) with
  | RuleValue.str s => some s
  | _ => none

/-- The input union of `NameProperty.__set__`; `other` is any non-`str`,
non-`None` Python value (the `isinstance(name, str)` check fails on it). -/
inductive NameInput
  | str (s : String)
  | none'
  | other (tag : String)
deriving DecidableEq

/-- `NameProperty.__set__` for the rule called `name`. -/
def NameProperty.set (name : String) (obj : Styles) (value : NameInput) :
    Styles × Option StyleErr :=
  let obj := obj.refresh true
  match value with
  | NameInput.none' => (obj.clear_rule name, none)
  | NameInput.str s => (obj.set_rule name (RuleValue.str s), none)
  | NameInput.other _ => (obj, some StyleErr.styleTypeName)

/-- The input union of `NameListProperty.__set__`; `other` is any Python
value that is neither `None`, a `str`, nor a `tuple` — no branch of the
source matches it. -/
inductive NameListInput
  | str (s : String)
  | tuple (ts : List String)
  | none'
  | other (tag : String)
deriving DecidableEq

/-- `NameListProperty.__set__` for the rule called `name`: a string is split
on spaces and each token stripped and lower-cased; a tuple is stored as
given; any other type falls through with no store change and no error. -/
def NameListProperty.set (name : String) (obj : Styles) (names : NameListInput) :
    Styles × Option StyleErr :=
  let obj := obj.refresh true
  match names with
  | NameListInput.none' => (obj.clear_rule name, none)
  | NameListInput.str s =>
    (obj.set_rule name (RuleValue.strTuple ((pySplit s).map (fun n => pyLower (pyStrip n)))), none)
  | NameListInput.tuple ts => (obj.set_rule name (RuleValue.strTuple ts), none)
  | NameListInput.other _ => (obj, none)

/-- A heap of mutable Python dict objects holding transition mappings; a
`Nat` is a reference to one dict, and a caller-side mutation of a dict is a
move to a different heap.  The source's `transitions.copy()` stores the
referenced dict's current *contents*, so the rule store holds a snapshot, not
the reference. -/
def TransitionHeap : Type := Nat → List (String × Transition)

/-- `TransitionsProperty.__set__`: `None` clears the rule, otherwise the rule
is set to a copy of the supplied mapping (`transitions.copy()`), and no
refresh of either kind is made. -/
def TransitionsProperty.set (heap : TransitionHeap) (obj : Styles) (transitions : Option Nat) :
    Styles × Option StyleErr :=
  match transitions with
  | none => (obj.clear_rule "transitions", none)
  | some r => (obj.set_rule "transitions" (RuleValue.transitions (heap r)), none)

/-- `TransitionsProperty.__get__`: the stored mapping, or an empty mapping if
unset.  It takes the current heap because a stored *reference* would have to
be dereferenced in it; the stored snapshot does not consult it. -/
def TransitionsProperty.get (_heap : TransitionHeap) (obj : Styles) :
    List (String × Transition) :=
  match obj.get_rule "transitions" with
  | some (RuleValue.transitions t) => t
  | _ => []

/-- Modelled from the spec: `clamp` from the external geometry module. -/
def clamp (value minimum maximum : ℚ) : ℚ :=
  if value < minimum then minimum else if value > maximum then maximum else value

/-- Configuration of a `FractionalProperty`: rule name and default. -/
structure FractionalProperty where
  name : String
  default : ℚ

/-- The input union of `FractionalProperty.__set__`.  Python ints are *not*
floats, so they land in `other` and hit the `StyleTypeError` branch. -/
inductive FractionalInput
  | float (value : ℚ)
  | str (value : String)
  | none'
  | other (tag : String)
deriving DecidableEq

/-- `FractionalProperty.__set__`: floats and `"…%"` strings are accepted and
clamped into [0, 1] before storage; any other type raises `StyleTypeError`. -/
def FractionalProperty.set (p : FractionalProperty) (obj : Styles) (value : FractionalInput) :
    Styles × Option StyleErr :=
  let obj := obj.refresh false
  match value with
  | FractionalInput.none' => (obj.clear_rule p.name, none)
  | FractionalInput.float v => (obj.set_rule p.name (RuleValue.fractional (clamp v 0 1)), none)
  | FractionalInput.str s =>
    if pyEndsWith s "%" then
      match Scalar.parse s CssUnit.width with
      | Except.ok sc => (obj.set_rule p.name (RuleValue.fractional (clamp (sc.value / 100) 0 1)), none)
      | Except.error e => (obj, some e)
    else (obj, some StyleErr.styleTypeFractional)
  | FractionalInput.other _ => (obj, some StyleErr.styleTypeFractional)

/-- `FractionalProperty.__get__`. -/
def FractionalProperty.get (p : FractionalProperty) (obj : Styles) : ℚ :=
  match obj.get_rule_or p.name (RuleValue.fractional p.default) with
  | RuleValue.fractional q => q
  | _ => p.default

/-! ### Refresh-call bookkeeping

`appendsOnlyRepaint obj obj2` says `obj2`'s refresh log extends `obj`'s with
repaint-only (`layout=False`) calls; `appendsRepaint` additionally demands at
least one call was made. -/

def appendsOnlyRepaint (obj obj2 : Styles) : Prop :=
  ∃ added, obj2.refreshCalls = obj.refreshCalls ++ added ∧ ∀ c ∈ added, c = false

def appendsRepaint (obj obj2 : Styles) : Prop :=
  ∃ added, obj2.refreshCalls = obj.refreshCalls ++ added ∧ added ≠ [] ∧ ∀ c ∈ added, c = false

/-! ### Rule-store lemmas -/

theorem Styles.get_rule_set_rule (obj : Styles) (name : String) (v : RuleValue) :
    (obj.set_rule name v).get_rule name = some v := by
  unfold Styles.set_rule Styles.get_rule
  rw [List.find?_cons_of_pos]
  · rfl
  · simp

theorem Styles.get_rule_clear_rule (obj : Styles) (name : String) :
    (obj.clear_rule name).get_rule name = none := by
  unfold Styles.clear_rule Styles.get_rule
  simp only [Option.map_eq_none', List.find?_eq_none, List.mem_filter]
  intro x hx
  simpa using hx.2

theorem Styles.rules_refresh (obj : Styles) (b : Bool) : (obj.refresh b).rules = obj.rules := rfl

theorem Styles.refreshCalls_refresh (obj : Styles) (b : Bool) :
    (obj.refresh b).refreshCalls = obj.refreshCalls ++ [b] := rfl

theorem appendsOnlyRepaint_refl (obj : Styles) : appendsOnlyRepaint obj obj :=
  ⟨[], by simp, by simp⟩

theorem appendsOnlyRepaint_trans {a b c : Styles} (h1 : appendsOnlyRepaint a b)
    (h2 : appendsOnlyRepaint b c) : appendsOnlyRepaint a c := by
  obtain ⟨d1, e1, f1⟩ := h1
  obtain ⟨d2, e2, f2⟩ := h2
  refine ⟨d1 ++ d2, by rw [e2, e1, List.append_assoc], ?_⟩
  intro x hx
  rcases List.mem_append.mp hx with h | h
  · exact f1 x h
  · exact f2 x h

theorem appendsRepaint_of_refresh_then {a b : Styles}
    (h : appendsOnlyRepaint (a.refresh false) b) : appendsRepaint a b := by
  obtain ⟨d, e, f⟩ := h
  refine ⟨false :: d, ?_, by simp, ?_⟩
  · rw [e, Styles.refreshCalls_refresh]
    simp
  · intro x hx
    rcases List.mem_cons.mp hx with h | h
    · exact h
    · exact f x h

theorem appendsOnlyRepaint_set_rule (obj : Styles) (name : String) (v : RuleValue) :
    appendsOnlyRepaint obj (obj.set_rule name v) := ⟨[], by simp [Styles.set_rule], by simp⟩

theorem appendsOnlyRepaint_clear_rule (obj : Styles) (name : String) :
    appendsOnlyRepaint obj (obj.clear_rule name) := ⟨[], by simp [Styles.clear_rule], by simp⟩

/-! ### Per-kind refresh-call lemmas -/

theorem boxSet_calls_of_ok (name : String) (obj : Styles) (b : Option (String × ColorInput))
    (h : (BoxProperty.set name obj b).2 = none) :
    (BoxProperty.set name obj b).1.refreshCalls = obj.refreshCalls ++ [false] := by
  match b with
  | none => rfl
  | some (t, ColorInput.color c) => rfl
  | some (t, ColorInput.str s) =>
    cases hp : Color.parse s with
    | ok c => simp only [BoxProperty.set, hp]; rfl
    | error e => simp only [BoxProperty.set, hp] at h; exact absurd h (by simp)

theorem boxSet_appendsOnly (name : String) (obj : Styles) (b : Option (String × ColorInput)) :
    appendsOnlyRepaint obj (BoxProperty.set name obj b).1 := by
  match b with
  | none => exact ⟨[false], rfl, by simp⟩
  | some (t, ColorInput.color c) => exact ⟨[false], rfl, by simp⟩
  | some (t, ColorInput.str s) =>
    cases hp : Color.parse s with
    | ok c =>
      simp only [BoxProperty.set, hp]
      exact ⟨[false], rfl, by simp⟩
    | error e =>
      simp only [BoxProperty.set, hp]
      exact appendsOnlyRepaint_refl obj

theorem setEdges_appendsOnly (l : List (String × Option (String × ColorInput))) :
    ∀ obj : Styles, appendsOnlyRepaint obj (setEdges obj l).1 := by
  induction l with
  | nil => intro obj; exact appendsOnlyRepaint_refl obj
  | cons p rest ih =>
    intro obj
    obtain ⟨n, b⟩ := p
    unfold setEdges
    split
    case _ obj2 heq =>
      have h1 : appendsOnlyRepaint obj obj2 := by
        have := boxSet_appendsOnly n obj b
        rwa [heq] at this
      exact appendsOnlyRepaint_trans h1 (ih obj2)
    case _ obj2 e heq =>
      have := boxSet_appendsOnly n obj b
      rwa [heq] at this

theorem borderSet_appendsRepaint (name : String) (obj : Styles) (b : BorderInput) :
    appendsRepaint obj (BorderProperty.set name obj b).1 := by
  apply appendsRepaint_of_refresh_then
  match b with
  | BorderInput.none' =>
    exact appendsOnlyRepaint_trans (appendsOnlyRepaint_clear_rule _ _)
      (appendsOnlyRepaint_trans (appendsOnlyRepaint_clear_rule _ _)
        (appendsOnlyRepaint_trans (appendsOnlyRepaint_clear_rule _ _)
          (appendsOnlyRepaint_clear_rule _ _)))
  | BorderInput.tuple t => exact setEdges_appendsOnly _ _
  | BorderInput.seq bs =>
    match bs with
    | [] => exact appendsOnlyRepaint_refl _
    | [b1] => exact setEdges_appendsOnly _ _
    | [b1, b2] => exact setEdges_appendsOnly _ _
    | [b1, b2, b3] => exact appendsOnlyRepaint_refl _
    | [b1, b2, b3, b4] => exact setEdges_appendsOnly _ _
    | b1 :: b2 :: b3 :: b4 :: b5 :: rest => exact appendsOnlyRepaint_refl _

theorem colorSet_calls (name : String) (obj : Styles) (c : ColorPropInput) :
    (ColorProperty.set name obj c).1.refreshCalls = obj.refreshCalls ++ [false] := by
  match c with
  | ColorPropInput.none' => rfl
  | ColorPropInput.color c => rfl
  | ColorPropInput.other t => rfl
  | ColorPropInput.str s =>
    cases hp : Color.parse s with
    | ok c => simp only [ColorProperty.set, hp]; rfl
    | error e => simp only [ColorProperty.set, hp]; rfl

theorem flagsSet_calls (name : String) (obj : Styles) (f : Option String) :
    (StyleFlagsProperty.set name obj f).1.refreshCalls = obj.refreshCalls ++ [false] := by
  match f with
  | none => rfl
  | some flags =>
    simp only [StyleFlagsProperty.set]
    split
    · rfl
    · cases hp : Style.parse flags with
      | ok st => simp only [hp]; rfl
      | error e => simp only [hp]; rfl

theorem stringEnumSet_calls (p : StringEnumProperty) (obj : Styles) (v : Option String) :
    (StringEnumProperty.set p obj v).1.refreshCalls = obj.refreshCalls ++ [false] := by
  match v with
  | none => rfl
  | some s =>
    simp only [StringEnumProperty.set]
    split <;> rfl

theorem fractionalSet_calls (p : FractionalProperty) (obj : Styles) (v : FractionalInput) :
    (FractionalProperty.set p obj v).1.refreshCalls = obj.refreshCalls ++ [false] := by
  match v with
  | FractionalInput.none' => rfl
  | FractionalInput.float q => rfl
  | FractionalInput.other t => rfl
  | FractionalInput.str s =>
    simp only [FractionalProperty.set]
    split
    · cases hp : Scalar.parse s CssUnit.width with
      | ok sc => simp only [hp]; rfl
      | error e => simp only [hp]; rfl
    · rfl

theorem andThen_appendsOnly {obj : Styles} {r : Styles × Option StyleErr}
    {k : Styles → Styles × Option StyleErr}
    (h1 : appendsOnlyRepaint obj r.1) (h2 : ∀ o, appendsOnlyRepaint o (k o).1) :
    appendsOnlyRepaint obj (andThen r k).1 := by
  rcases r with ⟨o, e⟩
  cases e with
  | none => exact appendsOnlyRepaint_trans h1 (h2 o)
  | some e => exact h1

theorem styleApply_appendsOnly (obj : Styles) (s : Style) :
    appendsOnlyRepaint obj (StyleProperty.apply obj s).1 := by
  unfold StyleProperty.apply
  apply andThen_appendsOnly
  · cases hc : s.color with
    | none => exact appendsOnlyRepaint_refl _
    | some c => exact ⟨[false], colorSet_calls _ _ _, by simp⟩
  · intro o
    apply andThen_appendsOnly
    · cases hb : s.bgcolor with
      | none => exact appendsOnlyRepaint_refl _
      | some c => exact ⟨[false], colorSet_calls _ _ _, by simp⟩
    · intro o2
      split
      · exact ⟨[false], flagsSet_calls _ _ _, by simp⟩
      · exact appendsOnlyRepaint_refl _

theorem styleSet_appendsRepaint (obj : Styles) (v : StyleInput) :
    appendsRepaint obj (StyleProperty.set obj v).1 := by
  apply appendsRepaint_of_refresh_then
  match v with
  | StyleInput.none' =>
    exact appendsOnlyRepaint_trans (appendsOnlyRepaint_clear_rule _ _)
      (appendsOnlyRepaint_trans (appendsOnlyRepaint_clear_rule _ _)
        (appendsOnlyRepaint_clear_rule _ _))
  | StyleInput.style st => exact styleApply_appendsOnly _ _
  | StyleInput.str s =>
    cases hp : Style.parse s with
    | ok st =>
      simp only [StyleProperty.set, hp]
      exact styleApply_appendsOnly _ _
    | error e =>
      simp only [StyleProperty.set, hp]
      exact appendsOnlyRepaint_refl _

theorem scalarFinish_calls (p : ScalarProperty) (obj : Styles) (v : Scalar) :
    ((p.finish obj v).2 = none ∧ (p.finish obj v).1.refreshCalls = obj.refreshCalls ++ [false])
    ∨ ((p.finish obj v).2 ≠ none ∧ (p.finish obj v).1.refreshCalls = obj.refreshCalls) := by
  unfold ScalarProperty.finish
  split
  · right; exact ⟨by simp, rfl⟩
  · left; exact ⟨rfl, rfl⟩

theorem scalarFinish_rules (p : ScalarProperty) (obj : Styles) (v : Scalar)
    (h : (p.finish obj v).2 ≠ none) : (p.finish obj v).1.rules = obj.rules := by
  unfold ScalarProperty.finish at h ⊢
  split at h
  case isTrue hc => rw [if_pos hc]
  case isFalse hc => simp at h

theorem scalarSet_calls_of_ok (p : ScalarProperty) (obj : Styles) (v : ScalarInput)
    (h : (ScalarProperty.set p obj v).2 = none) (hv : v ≠ ScalarInput.none') :
    (ScalarProperty.set p obj v).1.refreshCalls = obj.refreshCalls ++ [false] := by
  match v with
  | ScalarInput.none' => exact absurd rfl hv
  | ScalarInput.other t => simp only [ScalarProperty.set] at h; simp at h
  | ScalarInput.num q =>
    rcases scalarFinish_calls p obj ⟨q, CssUnit.cells, CssUnit.width⟩ with ⟨_, h2⟩ | ⟨h1, _⟩
    · exact h2
    · exact absurd h h1
  | ScalarInput.scalar sc =>
    rcases scalarFinish_calls p obj sc with ⟨_, h2⟩ | ⟨h1, _⟩
    · exact h2
    · exact absurd h h1
  | ScalarInput.str s =>
    simp only [ScalarProperty.set] at h ⊢
    cases hp : Scalar.parse s CssUnit.width with
    | ok sc =>
      simp only [hp] at h ⊢
      rcases scalarFinish_calls p obj sc with ⟨_, h2⟩ | ⟨h1, _⟩
      · exact h2
      · exact absurd h h1
    | error e => simp only [hp] at h; simp at h

theorem scalarSet_calls_of_error (p : ScalarProperty) (obj : Styles) (v : ScalarInput)
    (h : (ScalarProperty.set p obj v).2 ≠ none) :
    (ScalarProperty.set p obj v).1.refreshCalls = obj.refreshCalls := by
  match v with
  | ScalarInput.none' => exact absurd rfl h
  | ScalarInput.other t => rfl
  | ScalarInput.num q =>
    rcases scalarFinish_calls p obj ⟨q, CssUnit.cells, CssUnit.width⟩ with ⟨h1, _⟩ | ⟨_, h2⟩
    · exact absurd h1 h
    · exact h2
  | ScalarInput.scalar sc =>
    rcases scalarFinish_calls p obj sc with ⟨h1, _⟩ | ⟨_, h2⟩
    · exact absurd h1 h
    · exact h2
  | ScalarInput.str s =>
    simp only [ScalarProperty.set] at h ⊢
    cases hp : Scalar.parse s CssUnit.width with
    | ok sc =>
      simp only [hp] at h ⊢
      rcases scalarFinish_calls p obj sc with ⟨h1, _⟩ | ⟨_, h2⟩
      · exact absurd h1 h
      · exact h2
    | error e => simp only [hp]

theorem spacingSet_calls (name : String) (obj : Styles) (sp : Option SpacingDimensions) :
    (SpacingProperty.set name obj sp).1.refreshCalls = obj.refreshCalls ++ [true] := by
  match sp with
  | none => rfl
  | some dims =>
    simp only [SpacingProperty.set]
    cases hu : Spacing.unpack dims with
    | ok s => simp only [hu]; rfl
    | error e => simp only [hu]; rfl

theorem docksSet_calls (obj : Styles) (d : Option (List DockGroup)) :
    (DocksProperty.set obj d).1.refreshCalls = obj.refreshCalls ++ [true] := by
  match d with
  | none => rfl
  | some ds => rfl

theorem dockSet_calls (obj : Styles) (v : Option String) :
    (DockProperty.set obj v).1.refreshCalls = obj.refreshCalls ++ [true] := rfl

theorem layoutSet_calls (obj : Styles) (v : LayoutInput) :
    (LayoutProperty.set obj v).1.refreshCalls = obj.refreshCalls ++ [true] := by
  match v with
  | LayoutInput.none' => rfl
  | LayoutInput.layout l => rfl
  | LayoutInput.str s =>
    simp only [LayoutProperty.set]
    cases hl : get_layout s with
    | ok l => simp only [hl]; rfl
    | error e => simp only [hl]; rfl

theorem offsetSet_calls (name : String) (obj : Styles) (v : OffsetInput) :
    (OffsetProperty.set name obj v).1.refreshCalls = obj.refreshCalls ++ [true] := by
  match v with
  | OffsetInput.none' => rfl
  | OffsetInput.scalarOffset o => rfl
  | OffsetInput.pair x y =>
    simp only [OffsetProperty.set]
    split
    · rfl
    · split
      · rfl
      · rfl

theorem nameSet_calls (name : String) (obj : Styles) (v : NameInput) :
    (NameProperty.set name obj v).1.refreshCalls = obj.refreshCalls ++ [true] := by
  match v with
  | NameInput.none' => rfl
  | NameInput.str s => rfl
  | NameInput.other t => rfl

theorem nameListSet_calls (name : String) (obj : Styles) (v : NameListInput) :
    (NameListProperty.set name obj v).1.refreshCalls = obj.refreshCalls ++ [true] := by
  match v with
  | NameListInput.none' => rfl
  | NameListInput.str s => rfl
  | NameListInput.tuple ts => rfl
  | NameListInput.other t => rfl

theorem transitionsSet_calls (heap : TransitionHeap) (obj : Styles) (v : Option Nat) :
    (TransitionsProperty.set heap obj v).1.refreshCalls = obj.refreshCalls := by
  match v with
  | none => rfl
  | some r => rfl

/-! ### Claim theorems -/

/-- C1: the claim (and the setter's own docstring) says a length-2 border
shorthand applies the first value to the top and bottom edges and the second
to the right and left edges.  The code instead applies the first value to the
top and *right* edges and the second to the *bottom* and left edges.
Evaluating `BorderProperty.__set__` at the failing input
`[("heavy", red), ("double", blue)]` shows the stored per-edge rules. -/
theorem border_length2_first_value_top_right :
    (let st := (BorderProperty.set "border" styles0
      (BorderInput.seq [some ("heavy", ColorInput.color (Color.named "red")),
                        some ("double", ColorInput.color (Color.named "blue"))])).1
     st.get_rule "border_top" = some (RuleValue.box ("heavy", Color.named "red"))
     ∧ st.get_rule "border_right" = some (RuleValue.box ("heavy", Color.named "red"))
     ∧ st.get_rule "border_bottom" = some (RuleValue.box ("double", Color.named "blue"))
     ∧ st.get_rule "border_left" = some (RuleValue.box ("double", Color.named "blue"))) := by
  decide

/-- C2: the claim says that after writing a value and then `None` to the Dock
property, the rule is absent from the store and a read returns `"_default"`.
The code's `DockProperty.__set__` has no `None` branch and always calls
`set_rule`, so after the `None` write the `"dock"` rule is still present,
holding a stored Python `None`, and the read returns that `None` rather than
`"_default"` (the default is only used when the rule is absent, as the read
on a fresh object shows). -/
theorem dock_none_write_stores_null :
    (let st1 := (DockProperty.set styles0 (some "left")).1
     let st2 := (DockProperty.set st1 none).1
     st2.has_rule "dock" = true ∧ st2.get_rule "dock" = some RuleValue.pyNone
       ∧ DockProperty.get st2 = none ∧ DockProperty.get styles0 = some "_default") := by
  decide

/-- C3 counterexample: a `None` (clear) write to the Scalar kind — a
paint-only kind, and a write the spec itself counts as one ("Write accepts:
… or clear-sentinel") — completes without error yet invokes no refresh of
any kind, so "every write to a paint-only kind invokes repaint-only
refresh()" is false as stated. -/
theorem scalar_clear_write_no_refresh :
    (ScalarProperty.set ⟨"width", [CssUnit.cells], CssUnit.width⟩ styles0 ScalarInput.none').2
        = none
    ∧ (ScalarProperty.set ⟨"width", [CssUnit.cells], CssUnit.width⟩ styles0
        ScalarInput.none').1.refreshCalls = [] := by
  decide

/-- C3 (amended): every write to a layout-affecting kind (Spacing, Docks,
Dock, Layout, Offset, Name, Name-list) makes exactly one
`refresh(layout=True)` call; writes to the paint-only kinds only ever make
repaint-only `refresh()` calls, and every *successful* such write makes at
least one — except a Scalar clear (`None`) or failing Scalar write, which
makes none; a Transitions write makes no refresh call of either kind. -/
theorem refresh_side_effects_amended :
    (∀ (name : String) (obj : Styles) (v : Option SpacingDimensions),
        (SpacingProperty.set name obj v).1.refreshCalls = obj.refreshCalls ++ [true])
    ∧ (∀ (obj : Styles) (v : Option (List DockGroup)),
        (DocksProperty.set obj v).1.refreshCalls = obj.refreshCalls ++ [true])
    ∧ (∀ (obj : Styles) (v : Option String),
        (DockProperty.set obj v).1.refreshCalls = obj.refreshCalls ++ [true])
    ∧ (∀ (obj : Styles) (v : LayoutInput),
        (LayoutProperty.set obj v).1.refreshCalls = obj.refreshCalls ++ [true])
    ∧ (∀ (name : String) (obj : Styles) (v : OffsetInput),
        (OffsetProperty.set name obj v).1.refreshCalls = obj.refreshCalls ++ [true])
    ∧ (∀ (name : String) (obj : Styles) (v : NameInput),
        (NameProperty.set name obj v).1.refreshCalls = obj.refreshCalls ++ [true])
    ∧ (∀ (name : String) (obj : Styles) (v : NameListInput),
        (NameListProperty.set name obj v).1.refreshCalls = obj.refreshCalls ++ [true])
    ∧ (∀ (p : ScalarProperty) (obj : Styles) (v : ScalarInput),
        ((ScalarProperty.set p obj v).2 = none → v ≠ ScalarInput.none' →
          (ScalarProperty.set p obj v).1.refreshCalls = obj.refreshCalls ++ [false])
        ∧ (v = ScalarInput.none' →
          (ScalarProperty.set p obj v).1.refreshCalls = obj.refreshCalls)
        ∧ ((ScalarProperty.set p obj v).2 ≠ none →
          (ScalarProperty.set p obj v).1.refreshCalls = obj.refreshCalls))
    ∧ (∀ (name : String) (obj : Styles) (b : Option (String × ColorInput)),
        (BoxProperty.set name obj b).2 = none →
          (BoxProperty.set name obj b).1.refreshCalls = obj.refreshCalls ++ [false])
    ∧ (∀ (name : String) (obj : Styles) (b : BorderInput),
        appendsRepaint obj (BorderProperty.set name obj b).1)
    ∧ (∀ (obj : Styles) (v : StyleInput), appendsRepaint obj (StyleProperty.set obj v).1)
    ∧ (∀ (p : StringEnumProperty) (obj : Styles) (v : Option String),
        (StringEnumProperty.set p obj v).1.refreshCalls = obj.refreshCalls ++ [false])
    ∧ (∀ (name : String) (obj : Styles) (v : ColorPropInput),
        (ColorProperty.set name obj v).1.refreshCalls = obj.refreshCalls ++ [false])
    ∧ (∀ (name : String) (obj : Styles) (v : Option String),
        (StyleFlagsProperty.set name obj v).1.refreshCalls = obj.refreshCalls ++ [false])
    ∧ (∀ (p : FractionalProperty) (obj : Styles) (v : FractionalInput),
        (FractionalProperty.set p obj v).1.refreshCalls = obj.refreshCalls ++ [false])
    ∧ (∀ (heap : TransitionHeap) (obj : Styles) (v : Option Nat),
        (TransitionsProperty.set heap obj v).1.refreshCalls = obj.refreshCalls) := by
  refine ⟨spacingSet_calls, docksSet_calls, dockSet_calls, layoutSet_calls, offsetSet_calls,
    nameSet_calls, nameListSet_calls, ?_, boxSet_calls_of_ok, borderSet_appendsRepaint,
    styleSet_appendsRepaint, stringEnumSet_calls, colorSet_calls, flagsSet_calls,
    fractionalSet_calls, transitionsSet_calls⟩
  intro p obj v
  refine ⟨scalarSet_calls_of_ok p obj v, ?_, scalarSet_calls_of_error p obj v⟩
  intro hv
  subst hv
  rfl

/-- Witness for the amended C3 theorem: each hypothesis-bearing conjunct
holds at a concrete input — a successful Scalar value write refreshes once,
a Scalar clear and a failing Scalar write refresh zero times, and a
successful box-edge write refreshes once. -/
theorem refresh_side_effects_amended_witness :
    (ScalarProperty.set ⟨"width", [CssUnit.cells], CssUnit.width⟩ styles0
        (ScalarInput.num 5)).1.refreshCalls = [false]
    ∧ (ScalarProperty.set ⟨"width", [CssUnit.cells], CssUnit.width⟩ styles0
        ScalarInput.none').1.refreshCalls = []
    ∧ (ScalarProperty.set ⟨"width", [CssUnit.cells], CssUnit.width⟩ styles0
        (ScalarInput.other "object")).1.refreshCalls = []
    ∧ (BoxProperty.set "border_top" styles0
        (some ("heavy", ColorInput.color (Color.named "red")))).1.refreshCalls = [false] := by
  have h := refresh_side_effects_amended
  refine ⟨?_, ?_, ?_, ?_⟩
  · exact (h.2.2.2.2.2.2.2.1 _ styles0 _).1 (by decide) (by decide)
  · exact (h.2.2.2.2.2.2.2.1 _ styles0 _).2.1 rfl
  · exact (h.2.2.2.2.2.2.2.1 _ styles0 _).2.2 (by decide)
  · exact h.2.2.2.2.2.2.2.2.1 _ styles0 _ (by decide)

/-- C5 counterexample: a Color-property write of a value that is neither a
`Color`, a `str`, nor `None` (e.g. a list) raises nothing and leaves the
store unchanged — the write is silently swallowed, contradicting the claim
that it raises an error. -/
theorem color_wrong_type_write_silently_ignored :
    (ColorProperty.set "color" styles0 (ColorPropInput.other "list")).2 = none
    ∧ (ColorProperty.set "color" styles0 (ColorPropInput.other "list")).1.rules = [] := by
  decide

/-- C5 (amended): the Scalar, Name, and Fractional kinds do raise a
synchronous error on a value of an unacceptable type and leave the stored
rules unchanged; but the Color kind — and likewise the Name-list kind —
silently ignores a value of an unacceptable type: no error is raised and the
stored rules are left unchanged. -/
theorem wrong_type_write_amended :
    (∀ (p : ScalarProperty) (obj : Styles) (tag : String),
        (ScalarProperty.set p obj (ScalarInput.other tag)).2 =
            some StyleErr.styleValueExpectedScalar
        ∧ (ScalarProperty.set p obj (ScalarInput.other tag)).1.rules = obj.rules)
    ∧ (∀ (name : String) (obj : Styles) (tag : String),
        (NameProperty.set name obj (NameInput.other tag)).2 = some StyleErr.styleTypeName
        ∧ (NameProperty.set name obj (NameInput.other tag)).1.rules = obj.rules)
    ∧ (∀ (p : FractionalProperty) (obj : Styles) (tag : String),
        (FractionalProperty.set p obj (FractionalInput.other tag)).2 =
            some StyleErr.styleTypeFractional
        ∧ (FractionalProperty.set p obj (FractionalInput.other tag)).1.rules = obj.rules)
    ∧ (∀ (name : String) (obj : Styles) (tag : String),
        (ColorProperty.set name obj (ColorPropInput.other tag)).2 = none
        ∧ (ColorProperty.set name obj (ColorPropInput.other tag)).1.rules = obj.rules)
    ∧ (∀ (name : String) (obj : Styles) (tag : String),
        (NameListProperty.set name obj (NameListInput.other tag)).2 = none
        ∧ (NameListProperty.set name obj (NameListInput.other tag)).1.rules = obj.rules) :=
  ⟨fun _ _ _ => ⟨rfl, rfl⟩, fun _ _ _ => ⟨rfl, rfl⟩, fun _ _ _ => ⟨rfl, rfl⟩,
    fun _ _ _ => ⟨rfl, rfl⟩, fun _ _ _ => ⟨rfl, rfl⟩⟩

/-- C6: a Name-list write of a single space-separated string stores the
ordered tuple of its tokens, each stripped and lower-cased; a write of an
already-split tuple stores it as given; both writes succeed and make exactly
one layout refresh. -/
theorem name_list_write_tokenization :
    (∀ (name : String) (obj : Styles) (s : String),
        (NameListProperty.set name obj (NameListInput.str s)).2 = none
        ∧ (NameListProperty.set name obj (NameListInput.str s)).1.get_rule name =
            some (RuleValue.strTuple ((pySplit s).map (fun n => pyLower (pyStrip n))))
        ∧ (NameListProperty.set name obj (NameListInput.str s)).1.refreshCalls =
            obj.refreshCalls ++ [true])
    ∧ (∀ (name : String) (obj : Styles) (ts : List String),
        (NameListProperty.set name obj (NameListInput.tuple ts)).2 = none
        ∧ (NameListProperty.set name obj (NameListInput.tuple ts)).1.get_rule name =
            some (RuleValue.strTuple ts)
        ∧ (NameListProperty.set name obj (NameListInput.tuple ts)).1.refreshCalls =
            obj.refreshCalls ++ [true]) :=
  ⟨fun _ _ _ => ⟨rfl, Styles.get_rule_set_rule _ _ _, rfl⟩,
    fun _ _ _ => ⟨rfl, Styles.get_rule_set_rule _ _ _, rfl⟩⟩

/-- C9: a Transitions write of a mapping stores a snapshot of the mapping's
contents at write time, so however the caller mutates the original dict
afterwards (any later heap), a read returns the contents from write time; a
`None` write clears the rule; and no Transitions write makes any refresh
call. -/
theorem transitions_defensive_copy :
    (∀ (heap heap2 : TransitionHeap) (obj : Styles) (r : Nat),
        TransitionsProperty.get heap2 (TransitionsProperty.set heap obj (some r)).1 = heap r)
    ∧ (∀ (heap : TransitionHeap) (obj : Styles) (v : Option Nat),
        (TransitionsProperty.set heap obj v).1.refreshCalls = obj.refreshCalls)
    ∧ (∀ (heap : TransitionHeap) (obj : Styles),
        (TransitionsProperty.set heap obj none).1.has_rule "transitions" = false) := by
  refine ⟨?_, transitionsSet_calls, ?_⟩
  · intro heap heap2 obj r
    show TransitionsProperty.get heap2
        (obj.set_rule "transitions" (RuleValue.transitions (heap r))) = heap r
    unfold TransitionsProperty.get
    rw [Styles.get_rule_set_rule]
  · intro heap obj
    show (obj.clear_rule "transitions").has_rule "transitions" = false
    unfold Styles.has_rule
    rw [Styles.get_rule_clear_rule]
    rfl

/-- C10: the Enumerated-string, Style-flags, Name and Fractional setters call
the refresh collaborator first, before any validation — so every write to
them, error or not, appends exactly one refresh call — while the Scalar
setter refreshes only after a successful store, so a failing Scalar write
leaves the refresh log unchanged. -/
theorem refresh_before_validation :
    (∀ (p : StringEnumProperty) (obj : Styles) (v : Option String),
        (StringEnumProperty.set p obj v).1.refreshCalls = obj.refreshCalls ++ [false])
    ∧ (∀ (name : String) (obj : Styles) (v : Option String),
        (StyleFlagsProperty.set name obj v).1.refreshCalls = obj.refreshCalls ++ [false])
    ∧ (∀ (name : String) (obj : Styles) (v : NameInput),
        (NameProperty.set name obj v).1.refreshCalls = obj.refreshCalls ++ [true])
    ∧ (∀ (p : FractionalProperty) (obj : Styles) (v : FractionalInput),
        (FractionalProperty.set p obj v).1.refreshCalls = obj.refreshCalls ++ [false])
    ∧ (∀ (p : ScalarProperty) (obj : Styles) (v : ScalarInput),
        (ScalarProperty.set p obj v).2 ≠ none →
          (ScalarProperty.set p obj v).1.refreshCalls = obj.refreshCalls) :=
  ⟨stringEnumSet_calls, flagsSet_calls, nameSet_calls, fractionalSet_calls,
    scalarSet_calls_of_error⟩

/-- Witness for C10: a Scalar write with a disallowed unit fails, and its
refresh log is unchanged (empty), by the theorem itself. -/
theorem refresh_before_validation_witness :
    (ScalarProperty.set ⟨"width", [CssUnit.cells], CssUnit.width⟩ styles0
        (ScalarInput.scalar ⟨10, CssUnit.height, CssUnit.width⟩)).2 ≠ none
    ∧ (ScalarProperty.set ⟨"width", [CssUnit.cells], CssUnit.width⟩ styles0
        (ScalarInput.scalar ⟨10, CssUnit.height, CssUnit.width⟩)).1.refreshCalls = [] := by
  have h := refresh_before_validation
  exact ⟨by decide, h.2.2.2.2 _ styles0 _ (by decide)⟩

/-- C4: a Scalar write whose scalar's unit is outside the property's
configured allowed-unit set raises the disallowed-unit error and leaves the
stored rules unchanged; a Style-flags write containing any token outside the
fixed vocabulary raises the unknown-token error (naming an offending word)
and leaves the stored rules unchanged; and a Style-flags write of
`"bold italic"` succeeds and stores a style carrying both the bold and the
italic attribute. -/
theorem scalar_unit_and_style_flags_validation :
    (∀ (p : ScalarProperty) (obj : Styles) (v : Scalar),
        p.units.contains v.unit = false →
          (ScalarProperty.set p obj (ScalarInput.scalar v)).2 = some StyleErr.styleValueUnit
          ∧ (ScalarProperty.set p obj (ScalarInput.scalar v)).1.rules = obj.rules)
    ∧ (∀ (name : String) (obj : Styles) (flags : String),
        ((pySplit flags).map pyStrip).all (fun w => VALID_PROPERTIES.contains w) = false →
          (∃ w, (StyleFlagsProperty.set name obj (some flags)).2 =
              some (StyleErr.styleValueStyleFlag w))
          ∧ (StyleFlagsProperty.set name obj (some flags)).1.rules = obj.rules)
    ∧ (∀ (name : String) (obj : Styles),
        (StyleFlagsProperty.set name obj (some "bold italic")).2 = none
        ∧ (StyleFlagsProperty.set name obj (some "bold italic")).1.get_rule name =
            some (RuleValue.style ⟨none, none, some true, some true, none, none, none⟩)) := by
  refine ⟨?_, ?_, fun _ obj => ⟨rfl, Styles.get_rule_set_rule _ _ _⟩⟩
  · intro p obj v h
    have hcond : ¬ p.units.contains v.unit = true := by rw [h]; exact Bool.false_ne_true
    constructor
    · show (p.finish obj v).2 = some StyleErr.styleValueUnit
      unfold ScalarProperty.finish
      rw [if_pos hcond]
    · show (p.finish obj v).1.rules = obj.rules
      unfold ScalarProperty.finish
      rw [if_pos hcond]
  · intro name obj flags hall
    have hfind : ∃ w, (List.map pyStrip (pySplit flags)).find?
        (fun w => !VALID_PROPERTIES.contains w) = some w := by
      rw [List.all_eq_false] at hall
      obtain ⟨x, hx, hpx⟩ := hall
      have hs : ((List.map pyStrip (pySplit flags)).find?
          (fun w => !VALID_PROPERTIES.contains w)).isSome := by
        rw [List.find?_isSome]
        exact ⟨x, hx, by simpa using hpx⟩
      obtain ⟨w, hw⟩ := Option.isSome_iff_exists.mp hs
      exact ⟨w, hw⟩
    obtain ⟨w, hw⟩ := hfind
    simp only [StyleFlagsProperty.set, hw]
    exact ⟨⟨w, rfl⟩, rfl⟩

/-- Witness for C4: the unit `height` is outside the allowed set `{cells}`
and the word `"flarp"` is outside the flag vocabulary, so the two
error-raising conjuncts fire at these concrete inputs. -/
theorem scalar_unit_and_style_flags_validation_witness :
    (ScalarProperty.set ⟨"width", [CssUnit.cells], CssUnit.width⟩ styles0
        (ScalarInput.scalar ⟨10, CssUnit.height, CssUnit.width⟩)).2 =
      some StyleErr.styleValueUnit
    ∧ (∃ w, (StyleFlagsProperty.set "text_style" styles0 (some "bold flarp")).2 =
        some (StyleErr.styleValueStyleFlag w))
    ∧ (StyleFlagsProperty.set "text_style" styles0 (some "bold flarp")).1.rules = [] := by
  have h := scalar_unit_and_style_flags_validation
  refine ⟨(h.1 _ styles0 _ (by decide)).1, ?_, ?_⟩
  · exact (h.2.1 "text_style" styles0 "bold flarp" (by decide)).1
  · exact (h.2.1 "text_style" styles0 "bold flarp" (by decide)).2

/-- C7: a Fractional write clamps into [0, 1] without rejecting out-of-range
input — `1.5` stores `1.0`, `-0.2` stores `0.0`, `"50%"` stores `0.5` — and
a write of any other input type raises the `StyleTypeError`. -/
theorem fractional_clamping :
    (∀ (p : FractionalProperty) (obj : Styles),
        (FractionalProperty.set p obj (FractionalInput.float (3/2))).2 = none
        ∧ (FractionalProperty.set p obj (FractionalInput.float (3/2))).1.get_rule p.name =
            some (RuleValue.fractional 1))
    ∧ (∀ (p : FractionalProperty) (obj : Styles),
        (FractionalProperty.set p obj (FractionalInput.float (-(1/5)))).2 = none
        ∧ (FractionalProperty.set p obj (FractionalInput.float (-(1/5)))).1.get_rule p.name =
            some (RuleValue.fractional 0))
    ∧ (∀ (p : FractionalProperty) (obj : Styles),
        (FractionalProperty.set p obj (FractionalInput.str "50%")).2 = none
        ∧ (FractionalProperty.set p obj (FractionalInput.str "50%")).1.get_rule p.name =
            some (RuleValue.fractional (1/2)))
    ∧ (∀ (p : FractionalProperty) (obj : Styles) (tag : String),
        (FractionalProperty.set p obj (FractionalInput.other tag)).2 =
            some StyleErr.styleTypeFractional
        ∧ (FractionalProperty.set p obj (FractionalInput.other tag)).1.rules = obj.rules) := by
  refine ⟨?_, ?_, ?_, fun _ _ _ => ⟨rfl, rfl⟩⟩
  · intro p obj
    refine ⟨rfl, ?_⟩
    show ((obj.refresh false).set_rule p.name
        (RuleValue.fractional (clamp ((3 : ℚ)/2) 0 1))).get_rule p.name =
      some (RuleValue.fractional 1)
    rw [(by norm_num [clamp] : clamp ((3 : ℚ)/2) 0 1 = 1)]
    exact Styles.get_rule_set_rule _ _ _
  · intro p obj
    refine ⟨rfl, ?_⟩
    show ((obj.refresh false).set_rule p.name
        (RuleValue.fractional (clamp (-((1 : ℚ)/5)) 0 1))).get_rule p.name =
      some (RuleValue.fractional 0)
    rw [(by norm_num [clamp] : clamp (-((1 : ℚ)/5)) 0 1 = 0)]
    exact Styles.get_rule_set_rule _ _ _
  · intro p obj
    refine ⟨rfl, ?_⟩
    show ((obj.refresh false).set_rule p.name
        (RuleValue.fractional (clamp (((50 : Nat) : ℚ) / 100) 0 1))).get_rule p.name =
      some (RuleValue.fractional (1/2))
    rw [(by norm_num [clamp] : clamp (((50 : Nat) : ℚ)/100) 0 1 = 1/2)]
    exact Styles.get_rule_set_rule _ _ _

/-- C8: in an Offset 2-tuple write, a `"50%"` x-component is stored as a
percent scalar whose percent-reference axis is WIDTH, a `"50%"` y-component
as one whose percent-reference axis is HEIGHT, numeric components are stored
as CELLS-unit scalars, and the write refreshes with `layout=True`. -/
theorem offset_percent_axis_normalization :
    (∀ (name : String) (obj : Styles) (nx ny : Int),
        (OffsetProperty.set name obj (OffsetInput.pair (OffsetComponent.int nx)
            (OffsetComponent.int ny))).2 = none
        ∧ (OffsetProperty.set name obj (OffsetInput.pair (OffsetComponent.int nx)
            (OffsetComponent.int ny))).1.get_rule name =
          some (RuleValue.offset ⟨⟨(nx : ℚ), CssUnit.cells, CssUnit.width⟩,
            ⟨(ny : ℚ), CssUnit.cells, CssUnit.height⟩⟩)
        ∧ (OffsetProperty.set name obj (OffsetInput.pair (OffsetComponent.int nx)
            (OffsetComponent.int ny))).1.refreshCalls = obj.refreshCalls ++ [true])
    ∧ (∀ (name : String) (obj : Styles) (ny : Int),
        (OffsetProperty.set name obj (OffsetInput.pair (OffsetComponent.str "50%")
            (OffsetComponent.int ny))).2 = none
        ∧ (OffsetProperty.set name obj (OffsetInput.pair (OffsetComponent.str "50%")
            (OffsetComponent.int ny))).1.get_rule name =
          some (RuleValue.offset ⟨⟨((50 : Nat) : ℚ), CssUnit.percent, CssUnit.width⟩,
            ⟨(ny : ℚ), CssUnit.cells, CssUnit.height⟩⟩))
    ∧ (∀ (name : String) (obj : Styles) (nx : Int),
        (OffsetProperty.set name obj (OffsetInput.pair (OffsetComponent.int nx)
            (OffsetComponent.str "50%"))).2 = none
        ∧ (OffsetProperty.set name obj (OffsetInput.pair (OffsetComponent.int nx)
            (OffsetComponent.str "50%"))).1.get_rule name =
          some (RuleValue.offset ⟨⟨(nx : ℚ), CssUnit.cells, CssUnit.width⟩,
            ⟨((50 : Nat) : ℚ), CssUnit.percent, CssUnit.height⟩⟩)) :=
  ⟨fun _ _ _ _ => ⟨rfl, Styles.get_rule_set_rule _ _ _, rfl⟩,
    fun _ _ _ => ⟨rfl, Styles.get_rule_set_rule _ _ _⟩,
    fun _ _ _ => ⟨rfl, Styles.get_rule_set_rule _ _ _⟩⟩

end Textual
